import Mathlib

/-!
Verification of the CMS core: slug assignment, publish-state transitions,
and the centralized error-handling policy.

The definitions below are a shallow embedding of the Python source
(`cms/services`, `cms/models`, `cms/repositories`, `cms/utils/error_manager`).
Strings are modelled at the ASCII level (`Char.toLower`, `Char.isAlphanum`
coincide with Python `str.lower` / `\w` on the ASCII fragment exercised here);
timestamps are abstract instants (`Nat`); external collaborators
(bcrypt, marshmallow validation, the HTML sanitizer) are function parameters.
-/

namespace CMS

/-! ### Python string primitives (ASCII-level model) -/

/-- Python whitespace class `\s` (ASCII part): space, tab, newline,
carriage return, vertical tab, form feed. -/
def pyIsSpace (c : Char) : Bool :=
  c = ' ' || c = '\t' || c = '\n' || c = '\r' || c = '\x0b' || c = '\x0c'

/-- Python regex word class `\w` (ASCII part): alphanumerics and underscore. -/
def pyIsWord (c : Char) : Bool := c.isAlphanum || c = '_'

/-- Characters matched by the class `[-\s]` in `_generate_slug`. -/
def isSep (c : Char) : Bool := pyIsSpace c || c = '-'

/-- Python `str.lower` (ASCII). -/
def pyLower (s : String) : String := String.mk (s.toList.map Char.toLower)

/-- Python `str.strip()` (trim whitespace at both ends). -/
def pyStrip (s : String) : String :=
  String.mk (((s.toList.dropWhile pyIsSpace).reverse.dropWhile pyIsSpace).reverse)

/-! ### `_generate_slug` (ArticleService and CategoryService, identical code)

The Python body is a pipeline of four steps:
`slug = title.lower()`;
`re.sub(r'[^\w\s-]', '', slug)`;
`re.sub(r'[-\s]+', '-', slug)`;
`slug.strip('-')`; `slug[:100]`.
-/

/-- `re.sub(r'[^\w\s-]', '', ·)`: keep exactly the characters matching
`\w`, `\s` or `-`. -/
def removeSpecial (l : List Char) : List Char :=
  l.filter (fun c => pyIsWord c || pyIsSpace c || c = '-')

/-- `re.sub(r'[-\s]+', '-', ·)` as a left-to-right scan: the flag records
whether the scan is inside a run of `[-\s]` characters (each maximal run
is emitted as a single hyphen). -/
def collapseAux : Bool → List Char → List Char
  | _, [] => []
  | inSep, c :: rest =>
    if isSep c then
      if inSep then collapseAux true rest
      else '-' :: collapseAux true rest
    else c :: collapseAux false rest

/-- `re.sub(r'[-\s]+', '-', ·)`. -/
def collapseSeps (l : List Char) : List Char := collapseAux false l

/-- Python `str.strip('-')`. -/
def stripHyphens (l : List Char) : List Char :=
  ((l.dropWhile (fun c => c = '-')).reverse.dropWhile (fun c => c = '-')).reverse

/-- `ArticleService._generate_slug` / `CategoryService._generate_slug`. -/
def generate_slug (title : String) : String :=
  String.mk ((stripHyphens (collapseSeps (removeSpecial (pyLower title).toList))).take 100)

/-! ### Decimal numerals

The suffix loop builds strings `f"{original_slug}-{counter}"`; Python renders
`counter` in decimal, which the embedding writes as `Nat.repr`.  To reason
about collisions between suffixed slugs we prove `Nat.repr` injective. -/

/-- Most-significant-first decimal digit characters of `n`
(the value computed by core `Nat.toDigits 10`). -/
def decDigits (n : Nat) : List Char :=
  if _h : n < 10 then [Nat.digitChar n]
  else decDigits (n / 10) ++ [Nat.digitChar (n % 10)]
termination_by n
decreasing_by exact Nat.div_lt_self (by omega) (by omega)

/-- Decimal value of a most-significant-first digit-character list. -/
def decVal (l : List Char) : Nat := l.foldl (fun a c => a * 10 + (c.toNat - 48)) 0

/-! ### Slug store and the disambiguation loop

`ArticleRepository.slug_exists` / `CategoryRepository.slug_exists` query rows
by slug, optionally excluding one primary key; `create_article`,
`create_category` and `update_article` run the same inline `while` loop over
that query to find a free slug. -/

/-- A stored row as seen by `slug_exists`: primary key and slug. -/
structure SlugRow where
  id : Nat
  slug : String
deriving DecidableEq

/-- `slug_exists(slug, exclude_id)`.  The Python guard `if exclude_id:` is a
truthiness test, so an exclusion id of `None` — or of `0` — applies no
exclusion filter. -/
def slug_exists (store : List SlugRow) (slug : String) (exclude_id : Option Nat) : Bool :=
  store.any fun r =>
    r.slug == slug &&
      match exclude_id with
      | some e => !(e != 0) || r.id != e
      | none => true

/-- The candidate tried at loop iteration `k`: the base slug first, then
`f"{original_slug}-{counter}"` for `counter = 1, 2, …`. -/
def slugCandidate (base : String) : Nat → String
  | 0 => base
  | k + 1 => base ++ "-" ++ Nat.repr (k + 1)

/-- The `while slug_exists(slug): slug = f"{original_slug}-{counter}"; counter += 1`
loop, starting at candidate index `k` with `fuel` checks remaining.  `none`
models non-termination of the Python loop; `assign_slug_total` below shows the
fuel `store.length + 1` always suffices, so the embedded loop never returns
`none`. -/
def slugLoop (store : List SlugRow) (ex : Option Nat) (base : String) :
    Nat → Nat → Option String
  | 0, _ => none
  | fuel + 1, k =>
    if slug_exists store (slugCandidate base k) ex then
      slugLoop store ex base fuel (k + 1)
    else
      some (slugCandidate base k)

/-- Slug assignment as performed by `create_article` / `create_category`
(no exclusion) and by `update_article` (excluding the updated row):
run the disambiguation loop on an already-normalized base slug. -/
def assign_slug (store : List SlugRow) (ex : Option Nat) (base : String) : Option String :=
  slugLoop store ex base (store.length + 1) 0

/-! ### Spec-side normalization

A second normalization definition, written to the spec's §4.1 wording
(amended to keep underscores, which Python `\w` retains), structured as
run-recursion rather than the scan used by the embedding of the code.  The
equivalence proof below relates it to `generate_slug`. -/

/-- Run-collapsing as the spec words it: each maximal run of
whitespace/hyphen characters becomes one hyphen. -/
def collapseRuns : List Char → List Char
  | [] => []
  | c :: rest =>
    if isSep c then '-' :: collapseRuns (rest.dropWhile isSep)
    else c :: collapseRuns rest
termination_by l => l.length
decreasing_by
  · have hsub : List.Sublist (rest.dropWhile isSep) rest := List.dropWhile_sublist isSep
    have := hsub.length_le
    simp only [List.length_cons]
    omega
  · simp only [List.length_cons]
    omega

/-- The normalization pipeline in the spec's words, amended to keep
underscores: lowercase; strip every character that is not alphanumeric,
underscore, whitespace, or hyphen; collapse whitespace/hyphen runs into a
single hyphen; trim leading/trailing hyphens; truncate to 100 characters. -/
def spec_normalize (text : String) : String :=
  String.mk ((stripHyphens (collapseRuns
    ((text.toList.map Char.toLower).filter
      (fun c => c.isAlphanum || c = '_' || pyIsSpace c || c = '-')))).take 100)

/-! ### Error manager (`cms/utils/error_manager.py`)

`_generate_error_id` (uuid + date) and `_get_timestamp` (current time) are
nondeterministic in the source; the embedding passes their results in as
parameters and models `_get_timestamp`'s formatting separately. -/

/-- `ErrorSeverity` enum. -/
inductive ErrorSeverity
  | LOW
  | MEDIUM
  | HIGH
  | CRITICAL
deriving DecidableEq

/-- `ErrorSeverity.value`. -/
def ErrorSeverity.value : ErrorSeverity → String
  | .LOW => "low"
  | .MEDIUM => "medium"
  | .HIGH => "high"
  | .CRITICAL => "critical"

/-- `ErrorManager._get_default_message`: the `messages` dictionary covers all
four enum members, so the `.get` fallback string is unreachable and the
faithful embedding is a total match. -/
def get_default_message : ErrorSeverity → String
  | .LOW => "A minor issue occurred. Please try again."
  | .MEDIUM => "An error occurred while processing your request."
  | .HIGH => "A serious error occurred. Please contact support."
  | .CRITICAL => "A critical system error occurred. Please contact support immediately."

/-- Python `user_message or default`: `None` and the empty string are both
falsy, so an empty caller-supplied message falls back to the default. -/
def pyOrStr (user_message : Option String) (dflt : String) : String :=
  match user_message with
  | some m => if m = "" then dflt else m
  | none => dflt

/-- The record `handle_error` returns to the caller: exactly the five keys
`error_id`, `message`, `severity`, `timestamp`, `type`. -/
structure ErrorResponse where
  error_id : String
  message : String
  severity : String
  timestamp : String
  type : String
deriving DecidableEq

/-- The `log_data` record `_log_error` hands to the logger (`context or {}`
is the empty association list when no context was supplied). -/
structure LogRecord where
  error_id : String
  error_type : String
  error_message : String
  severity : String
  context : List (String × String)
deriving DecidableEq

/-- `ErrorManager.handle_error`.  The exception argument contributes its class
name (`error.__class__.__name__`) and `str(error)`; `error_id` and
`timestamp` are the freshly generated id and current-time string. -/
def handle_error (errType errMsg : String) (severity : ErrorSeverity)
    (context : List (String × String)) (user_message : Option String)
    (error_id timestamp : String) : ErrorResponse × LogRecord :=
  ({ error_id := error_id
     message := pyOrStr user_message (get_default_message severity)
     severity := severity.value
     timestamp := timestamp
     type := errType },
   { error_id := error_id
     error_type := errType
     error_message := errMsg
     severity := severity.value
     context := context })

/-! ### Timestamps (`_get_timestamp`) -/

/-- A Python `datetime` value (UTC, no tzinfo).  `datetime` guarantees
`1 ≤ year ≤ 9999`, `1 ≤ month ≤ 12`, `1 ≤ day ≤ 31`, `hour ≤ 23`,
`minute, second ≤ 59`, `microsecond ≤ 999999`. -/
structure PyDateTime where
  year : Nat
  month : Nat
  day : Nat
  hour : Nat
  minute : Nat
  second : Nat
  microsecond : Nat
deriving DecidableEq

/-- Two-digit zero-padded decimal field, as `isoformat` prints values `< 100`. -/
def pad2 (n : Nat) : String :=
  String.mk [Nat.digitChar (n / 10 % 10), Nat.digitChar (n % 10)]

/-- Four-digit zero-padded year, as `isoformat` prints years `< 10000`. -/
def pad4 (n : Nat) : String :=
  String.mk [Nat.digitChar (n / 1000 % 10), Nat.digitChar (n / 100 % 10),
    Nat.digitChar (n / 10 % 10), Nat.digitChar (n % 10)]

/-- Six-digit zero-padded microsecond field of `isoformat`. -/
def pad6 (n : Nat) : String :=
  String.mk [Nat.digitChar (n / 100000 % 10), Nat.digitChar (n / 10000 % 10),
    Nat.digitChar (n / 1000 % 10), Nat.digitChar (n / 100 % 10),
    Nat.digitChar (n / 10 % 10), Nat.digitChar (n % 10)]

/-- The `YYYY-MM-DDTHH:MM:SS` part of `datetime.isoformat()`. -/
def secondsPart (d : PyDateTime) : String :=
  pad4 d.year ++ "-" ++ pad2 d.month ++ "-" ++ pad2 d.day ++ "T" ++
    pad2 d.hour ++ ":" ++ pad2 d.minute ++ ":" ++ pad2 d.second

/-- `datetime.isoformat()` (default `timespec`): the seconds form, followed by
a 6-digit fractional part exactly when `microsecond` is nonzero. -/
def pyIsoformat (d : PyDateTime) : String :=
  secondsPart d ++ (if d.microsecond = 0 then "" else "." ++ pad6 d.microsecond)

/-- `ErrorManager._get_timestamp`: `datetime.utcnow().isoformat() + "Z"`. -/
def get_timestamp (now : PyDateTime) : String := pyIsoformat now ++ "Z"

/-! ### Entity models (`cms/models`)

Audit columns (`created_at`, `updated_at`) and ORM relationship attributes are
omitted: no claim concerns them.  Timestamps are abstract UTC instants
(`Nat`). -/

/-- `Article` row. -/
structure Article where
  id : Nat
  title : String
  slug : String
  content : String
  excerpt : Option String
  is_published : Bool
  published_at : Option Nat
  author_id : Nat
  category_id : Option Nat
deriving DecidableEq

/-- `Article.is_draft`. -/
def Article.is_draft (a : Article) : Bool := !a.is_published

/-- `Article.publish`: guarded by `if not self.is_published`. -/
def Article.publish (now : Nat) (a : Article) : Article :=
  if !a.is_published then { a with is_published := true, published_at := some now }
  else a

/-- `Article.unpublish`: guarded by `if self.is_published`. -/
def Article.unpublish (a : Article) : Article :=
  if a.is_published then { a with is_published := false, published_at := none }
  else a

/-- `Category` row (fields the services read). -/
structure Category where
  id : Nat
  name : String
  slug : String
  description : Option String
  is_active : Bool
deriving DecidableEq

/-- `User` row (fields authentication and the permission checks read). -/
structure User where
  id : Nat
  email : String
  username : String
  password_hash : String
  is_active : Bool
  is_staff : Bool
  is_superuser : Bool
deriving DecidableEq

/-! ### Article service (`cms/services`: ArticleService)

`InputValidator.sanitize_html` (the bleach allow-list) is an external
collaborator passed as a function parameter; `datetime.utcnow()` is the
parameter `now`; the autoincremented primary key is `next_id`. -/

/-- An exception as raised inside the services: class name and message. -/
structure CmsErr where
  ty : String
  msg : String
deriving DecidableEq

deriving instance DecidableEq for Except

/-- The error finally raised to the caller of `create_article` after its
`except (ValidationError, DatabaseError)` block: the re-raised class, its
message (the `handle_error` response message) and the `type` recorded in the
attached response details (the inner exception's class name). -/
structure ServiceError where
  excClass : String
  message : String
  detailsType : String
deriving DecidableEq

/-- Python truthiness of `article_data.get(key)` for a text field:
a missing key or an empty string is falsy. -/
def pyFalsyStr : Option String → Bool
  | none => true
  | some s => s == ""

/-- Python truthiness of a nullable integer: `None` and `0` are falsy. -/
def pyTruthyNat : Option Nat → Bool
  | none => false
  | some c => c != 0

/-- The guard `category = get_by_id(category_id); if not category or not
category.is_active` shared by `create_article` and `update_article`. -/
def category_valid (categories : List Category) (c : Nat) : Bool :=
  match categories.find? (fun cat => cat.id == c) with
  | some cat => cat.is_active
  | none => false

/-- `create_article` payload (`article_data` keys the code reads).  `none`
models an absent key. -/
structure ArticleCreate where
  title : Option String
  content : Option String
  excerpt : Option String
  category_id : Option Nat
  is_published : Option Bool
deriving DecidableEq

/-- `ArticleService.create_article`.  `checkRows` is the slug namespace the
`slug_exists` loop reads and `persistRows` the one enforcing the unique
constraint when `BaseRepository.create` commits; sequentially they coincide,
and they differ only under the §5 concurrent-writer race.  A commit-time slug
collision raises `IntegrityError`, which `BaseRepository.create` wraps into
`DatabaseError("Failed to create Article")`; the service's `except
(ValidationError, DatabaseError)` block passes any caught error through
`handle_error` (severity MEDIUM, no user message) and re-raises
`ValidationError` with the response message.  The outer `none` models
non-termination of the slug loop (provably never produced). -/
def create_article (sanitize : String → String) (now next_id : Nat)
    (categories : List Category) (checkRows persistRows : List SlugRow)
    (data : ArticleCreate) (author_id : Nat) (error_id timestamp : String) :
    Option (Except ServiceError Article) :=
  let inner : Option (Except CmsErr Article) :=
    if pyFalsyStr data.title then
      some (.error ⟨"ValidationError", "Title is required"⟩)
    else if pyFalsyStr data.content then
      some (.error ⟨"ValidationError", "Content is required"⟩)
    else
      let title := data.title.getD ""
      let content := data.content.getD ""
      match assign_slug checkRows none (generate_slug title) with
      | none => none
      | some slug =>
        if pyTruthyNat data.category_id && !category_valid categories (data.category_id.getD 0) then
          some (.error ⟨"ValidationError", "Invalid category selected"⟩)
        else if slug ∈ persistRows.map SlugRow.slug then
          some (.error ⟨"DatabaseError", "Failed to create Article"⟩)
        else
          let excerpt := pyStrip (data.excerpt.getD "")
          let article : Article :=
            { id := next_id
              title := pyStrip title
              slug := slug
              content := sanitize content
              excerpt := if excerpt = "" then none else some excerpt
              is_published := data.is_published.getD false
              published_at := none
              author_id := author_id
              category_id := data.category_id }
          some (.ok (if article.is_published then Article.publish now article else article))
  match inner with
  | none => none
  | some (.ok a) => some (.ok a)
  | some (.error e) =>
    some (.error
      ⟨"ValidationError",
        (handle_error e.ty e.msg .MEDIUM
          [("operation", "article_creation"), ("author_id", Nat.repr author_id)]
          none error_id timestamp).1.message,
        e.ty⟩)

/-- The `update_data` dictionary built by `update_article`: a present field
is applied by `BaseRepository.update` via `setattr`. -/
structure UpdateData where
  title : Option String
  slug : Option String
  content : Option String
  excerpt : Option (Option String)
  category_id : Option (Option Nat)
  is_published : Option Bool
  published_at : Option (Option Nat)
deriving DecidableEq

/-- The empty `update_data = {}`. -/
def emptyUpdate : UpdateData := ⟨none, none, none, none, none, none, none⟩

/-- `BaseRepository.update`: `setattr(entity, key, value)` for each key in
the update dictionary (every key used here is an `Article` attribute, so the
`hasattr` guard always passes). -/
def apply_update (a : Article) (ud : UpdateData) : Article :=
  { a with
    title := ud.title.getD a.title
    slug := ud.slug.getD a.slug
    content := ud.content.getD a.content
    excerpt := ud.excerpt.getD a.excerpt
    category_id := ud.category_id.getD a.category_id
    is_published := ud.is_published.getD a.is_published
    published_at := ud.published_at.getD a.published_at }

/-- The permission check
`if not (user and (article.author_id == user_id or user.is_staff))`. -/
def can_edit (users : List User) (article : Article) (user_id : Nat) : Bool :=
  match users.find? (fun u => u.id == user_id) with
  | some u => article.author_id == user_id || u.is_staff
  | none => false

/-- `update_article` payload: `none` models a key absent from `article_data`
(the code tests `'key' in article_data`).  A present `category_id` may itself
be null; a present `is_published` value is the result of the code's
`bool(...)` coercion. -/
structure ArticleUpdate where
  title : Option String
  content : Option String
  excerpt : Option String
  category_id : Option (Option Nat)
  is_published : Option Bool
deriving DecidableEq

/-- The `'title' in article_data` block: strip the new title and, when it
differs from the stored title, re-derive the slug with the row itself
excluded from the collision check.  `none` models non-termination of the
slug loop. -/
def titleStep (articles : List Article) (article : Article) (article_id : Nat)
    (data : ArticleUpdate) : Option UpdateData :=
  match data.title with
  | none => some emptyUpdate
  | some t0 =>
    let t := pyStrip t0
    if t ≠ article.title then
      match assign_slug (articles.map fun a => ⟨a.id, a.slug⟩) (some article_id)
          (generate_slug t) with
      | none => none
      | some s => some { emptyUpdate with title := some t, slug := some s }
    else
      some { emptyUpdate with title := some t }

/-- The `'content' in article_data` block. -/
def contentStep (sanitize : String → String) (data : ArticleUpdate)
    (ud : UpdateData) : UpdateData :=
  match data.content with
  | none => ud
  | some c => { ud with content := some (sanitize c) }

/-- The `'excerpt' in article_data` block (`.strip() or None`). -/
def excerptStep (data : ArticleUpdate) (ud : UpdateData) : UpdateData :=
  match data.excerpt with
  | none => ud
  | some e0 =>
    let e := pyStrip e0
    { ud with excerpt := some (if e = "" then none else some e) }

/-- The `'category_id' in article_data` block: a truthy id must name an
active category; the (possibly null) id is then written to the update
dictionary. -/
def categoryStep (categories : List Category) (data : ArticleUpdate)
    (ud : UpdateData) : Except CmsErr UpdateData :=
  match data.category_id with
  | none => .ok ud
  | some cid =>
    if pyTruthyNat cid && !category_valid categories (cid.getD 0) then
      .error ⟨"ValidationError", "Invalid category selected"⟩
    else
      .ok { ud with category_id := some cid }

/-- The `'is_published' in article_data` block: record the flag and perform
the `published_at` bookkeeping of the publish state machine. -/
def publishStep (now : Nat) (article : Article) (data : ArticleUpdate)
    (ud : UpdateData) : UpdateData :=
  match data.is_published with
  | none => ud
  | some p =>
    let ud1 := { ud with is_published := some p }
    if p && !article.is_published then { ud1 with published_at := some (some now) }
    else if !p && article.is_published then { ud1 with published_at := some none }
    else ud1

/-- `ArticleService.update_article`.  There is no `try` block here: raised
errors propagate to the caller as they are.  `articles` doubles as the slug
namespace for the title-change loop; `now` is `datetime.utcnow()`. -/
def update_article (sanitize : String → String) (now : Nat)
    (users : List User) (categories : List Category) (articles : List Article)
    (article_id : Nat) (data : ArticleUpdate) (user_id : Nat) :
    Option (Except CmsErr Article) :=
  match articles.find? (fun a => a.id == article_id) with
  | none => some (.error ⟨"BusinessLogicError", "Article not found"⟩)
  | some article =>
    if !can_edit users article user_id then
      some (.error ⟨"BusinessLogicError",
        "You don\x27t have permission to edit this article"⟩)
    else
      match titleStep articles article article_id data with
      | none => none
      | some ud =>
        match categoryStep categories data
            (excerptStep data (contentStep sanitize data ud)) with
        | .error e => some (.error e)
        | .ok ud1 =>
          some (.ok (apply_update article (publishStep now article data ud1)))

/-! ### Authentication service (`cms/services`: AuthenticationService) -/

/-- `UserRepository.get_by_email`: filter on `User.email == email.lower()`. -/
def get_by_email (users : List User) (email : String) : Option User :=
  users.find? fun u => u.email == pyLower email

/-- Outcome of `authenticate_user`: success, or the finally raised exception
(class, outward message, and the `type` field of the attached `handle_error`
response details; for the un-transformed schema failure the class name is
recorded there too). -/
inductive AuthResult
  | ok (user : User)
  | failure (excClass message detailsType : String)
deriving DecidableEq

/-- `AuthenticationService.authenticate_user`.  `loginValid` stands for the
marshmallow `UserLoginSchema` check (an external collaborator); on schema
failure `validate_data` raises `SecurityException("Invalid input data")`,
which the `except AuthenticationError` clause does not catch, so it reaches
the caller unchanged.  `verify` stands for `bcrypt.checkpw`.  Every
`AuthenticationError` raised in the `try` body is replaced by a new
`AuthenticationError` whose message is the `handle_error` response message
(here the caller-supplied user message, which is non-empty).  The
`last_login` write on success is orthogonal to every claim and omitted. -/
def authenticate_user (loginValid verify : String → String → Bool)
    (users : List User) (email password : String)
    (error_id timestamp : String) : AuthResult :=
  if !loginValid email password then
    .failure "SecurityException" "Invalid input data" "SecurityException"
  else
    let transform := fun (internalMsg : String) =>
      let resp := (handle_error "AuthenticationError" internalMsg .MEDIUM
        [("operation", "user_authentication"), ("email", email)]
        (some "Authentication failed. Please check your credentials.")
        error_id timestamp).1
      AuthResult.failure "AuthenticationError" resp.message resp.type
    match get_by_email users email with
    | none => transform "Invalid email or password"
    | some user =>
      if !user.is_active then transform "Account is deactivated"
      else if !verify password user.password_hash then
        transform "Invalid email or password"
      else .ok user

/-- A 100-character base slug, used to exhibit the length overflow. -/
def longBase : String := String.mk (List.replicate 100 'a')

/-- Fixed author and articles for the update-path witnesses. -/
def demoAuthor : User := ⟨7, "a@b.c", "author", "h", true, false, false⟩

/-- A draft article owned by `demoAuthor`. -/
def demoDraft : Article := ⟨1, "T", "t", "c", none, false, none, 7, none⟩

/-- A published article owned by `demoAuthor`. -/
def demoPublished : Article := ⟨2, "U", "u", "c", none, true, some 10, 7, none⟩

/-! ## Proof development -/

theorem toDigitsCore_append (fuel : Nat) :
    ∀ (n : Nat) (ds : List Char),
      Nat.toDigitsCore 10 fuel n ds = Nat.toDigitsCore 10 fuel n [] ++ ds := by
  induction fuel with
  | zero => intro n ds; simp [Nat.toDigitsCore]
  | succ fuel ih =>
    intro n ds
    simp only [Nat.toDigitsCore]
    by_cases h : n / 10 = 0
    · simp [h]
    · rw [if_neg h, if_neg h, ih (n / 10) (Nat.digitChar (n % 10) :: ds),
        ih (n / 10) [Nat.digitChar (n % 10)], List.append_assoc, List.singleton_append]

theorem toDigitsCore_eq_decDigits :
    ∀ (fuel n : Nat), n < fuel → Nat.toDigitsCore 10 fuel n [] = decDigits n := by
  intro fuel
  induction fuel with
  | zero => intro n hn; omega
  | succ fuel ih =>
    intro n hn
    simp only [Nat.toDigitsCore]
    by_cases h : n / 10 = 0
    · have hlt : n < 10 := by
        by_contra hc
        have h1 : 1 ≤ n / 10 := (Nat.one_le_div_iff (by omega)).mpr (by omega)
        omega
      rw [if_pos h, decDigits, dif_pos hlt, Nat.mod_eq_of_lt hlt]
    · have h10 : 10 ≤ n := by
        by_contra hcon
        exact h (Nat.div_eq_of_lt (by omega))
      have hdivlt : n / 10 < fuel := by
        have := Nat.div_lt_self (by omega : 0 < n) (by omega : 1 < 10)
        omega
      conv_rhs => rw [decDigits]
      rw [if_neg h, toDigitsCore_append, ih (n / 10) hdivlt,
        dif_neg (by omega : ¬ n < 10)]

theorem toDigits_eq_decDigits (n : Nat) : Nat.toDigits 10 n = decDigits n := by
  unfold Nat.toDigits
  exact toDigitsCore_eq_decDigits (n + 1) n (by omega)

theorem decVal_append_digit (l : List Char) (c : Char) :
    decVal (l ++ [c]) = decVal l * 10 + (c.toNat - 48) := by
  simp only [decVal, List.foldl_append, List.foldl_cons, List.foldl_nil]

theorem digitChar_toNat (n : Nat) (h : n < 10) : (Nat.digitChar n).toNat = n + 48 := by
  interval_cases n <;> rfl

theorem decVal_decDigits (n : Nat) : decVal (decDigits n) = n := by
  induction n using Nat.strong_induction_on with
  | _ n ih =>
    by_cases h : n < 10
    · rw [decDigits, dif_pos h]
      simp only [decVal, List.foldl_cons, List.foldl_nil]
      rw [digitChar_toNat n h]
      omega
    · rw [decDigits, dif_neg h]
      have hdiv : n / 10 < n := Nat.div_lt_self (by omega) (by omega)
      have hmod : n % 10 < 10 := Nat.mod_lt _ (by omega)
      rw [decVal_append_digit, ih _ hdiv, digitChar_toNat _ hmod]
      omega

theorem natRepr_injective : Function.Injective Nat.repr := by
  intro m n h
  have hdata : Nat.toDigits 10 m = Nat.toDigits 10 n := by
    have hd := congrArg String.data h
    simpa [Nat.repr, List.asString] using hd
  rw [toDigits_eq_decDigits, toDigits_eq_decDigits] at hdata
  have := congrArg decVal hdata
  rwa [decVal_decDigits, decVal_decDigits] at this

theorem decDigits_ne_nil (n : Nat) : decDigits n ≠ [] := by
  rw [decDigits]
  split <;> simp

theorem natRepr_ne_empty (n : Nat) : Nat.repr n ≠ "" := by
  intro h
  have hd := congrArg String.data h
  rw [Nat.repr] at hd
  simp only [List.asString] at hd
  exact decDigits_ne_nil n (by rw [← toDigits_eq_decDigits]; simpa using hd)

theorem string_data_inj {a b : String} (h : a.data = b.data) : a = b := by
  cases a
  cases b
  exact congrArg String.mk h

theorem slugCandidate_injective (base : String) :
    Function.Injective (slugCandidate base) := by
  intro i j h
  have hdata := congrArg String.data h
  match i, j with
  | 0, 0 => rfl
  | 0, j + 1 =>
    exfalso
    simp only [slugCandidate, String.data_append] at hdata
    have := congrArg List.length hdata
    simp at this
  | i + 1, 0 =>
    exfalso
    simp only [slugCandidate, String.data_append] at hdata
    have := congrArg List.length hdata
    simp at this
  | i + 1, j + 1 =>
    simp only [slugCandidate, String.data_append, List.append_assoc,
      List.append_cancel_left_eq] at hdata
    have := natRepr_injective (string_data_inj hdata)
    omega

theorem exists_free_candidate (store : List SlugRow) (ex : Option Nat) (base : String) :
    ∃ j, j ≤ store.length ∧ slug_exists store (slugCandidate base j) ex = false := by
  by_contra hcon
  push_neg at hcon
  have hsub : (Finset.range (store.length + 1)).image (slugCandidate base) ⊆
      (store.map SlugRow.slug).toFinset := by
    intro s hs
    obtain ⟨j, hj, rfl⟩ := Finset.mem_image.mp hs
    have hj' : slug_exists store (slugCandidate base j) ex = true := by
      have := hcon j (by simpa using Nat.lt_succ_iff.mp (Finset.mem_range.mp hj))
      simpa using Bool.not_eq_false _ |>.mp (by simpa using this)
    simp only [slug_exists, List.any_eq_true, Bool.and_eq_true, beq_iff_eq] at hj'
    obtain ⟨r, hr, hslug, -⟩ := hj'
    exact List.mem_toFinset.mpr (List.mem_map.mpr ⟨r, hr, hslug⟩)
  have hcard := Finset.card_le_card hsub
  rw [Finset.card_image_of_injective _ (slugCandidate_injective base),
    Finset.card_range] at hcard
  have := List.toFinset_card_le (store.map SlugRow.slug)
  simp only [List.length_map] at this
  omega

theorem slugLoop_sound (store : List SlugRow) (ex : Option Nat) (base : String) :
    ∀ (fuel k : Nat),
      (∃ j, j < fuel ∧ slug_exists store (slugCandidate base (k + j)) ex = false) →
      ∃ m, k ≤ m ∧ slugLoop store ex base fuel k = some (slugCandidate base m) ∧
        slug_exists store (slugCandidate base m) ex = false ∧
        ∀ i, k ≤ i → i < m → slug_exists store (slugCandidate base i) ex = true := by
  intro fuel
  induction fuel with
  | zero =>
    intro k h
    obtain ⟨j, hj, -⟩ := h
    omega
  | succ fuel ih =>
    intro k h
    obtain ⟨j, hj, hfree⟩ := h
    by_cases hk : slug_exists store (slugCandidate base k) ex = true
    · have hj0 : j ≠ 0 := by
        intro hz
        subst hz
        rw [Nat.add_zero, hk] at hfree
        cases hfree
      obtain ⟨m, hkm, heq, hfree', hmin⟩ :=
        ih (k + 1) ⟨j - 1, by omega, by rw [show k + 1 + (j - 1) = k + j by omega]; exact hfree⟩
      refine ⟨m, by omega, ?_, hfree', ?_⟩
      · simp [slugLoop, hk, heq]
      · intro i h1 h2
        rcases Nat.eq_or_lt_of_le h1 with hik | hlt
        · rw [← hik]; exact hk
        · exact hmin i hlt h2
    · refine ⟨k, Nat.le_refl k, by simp [slugLoop, hk], by simpa using hk, ?_⟩
      intro i h1 h2
      omega

/-- Full specification of slug assignment: it succeeds, returns the candidate
at the least collision-free index, and every earlier candidate collides. -/
theorem assign_slug_main (store : List SlugRow) (ex : Option Nat) (base : String) :
    ∃ m, assign_slug store ex base = some (slugCandidate base m) ∧
      slug_exists store (slugCandidate base m) ex = false ∧
      ∀ i, i < m → slug_exists store (slugCandidate base i) ex = true := by
  obtain ⟨j, hjle, hjfree⟩ := exists_free_candidate store ex base
  obtain ⟨m, -, heq, hfree, hmin⟩ :=
    slugLoop_sound store ex base (store.length + 1) 0
      ⟨j, by omega, by simpa using hjfree⟩
  exact ⟨m, heq, hfree, fun i hi => hmin i (by omega) hi⟩

theorem assign_slug_total (store : List SlugRow) (ex : Option Nat) (base : String) :
    ∃ s, assign_slug store ex base = some s := by
  obtain ⟨m, heq, -, -⟩ := assign_slug_main store ex base
  exact ⟨slugCandidate base m, heq⟩

theorem collapseAux_true (l : List Char) :
    collapseAux true l = collapseAux false (l.dropWhile isSep) := by
  induction l with
  | nil => rfl
  | cons c rest ih =>
    by_cases h : isSep c = true
    · simp [collapseAux, h, List.dropWhile, ih]
    · simp [collapseAux, h, List.dropWhile]

theorem collapseSeps_eq_collapseRuns (l : List Char) : collapseSeps l = collapseRuns l := by
  have H : ∀ (n : Nat) (l : List Char), l.length ≤ n → collapseSeps l = collapseRuns l := by
    intro n
    induction n with
    | zero =>
      intro l hl
      match l with
      | [] => simp [collapseSeps, collapseAux, collapseRuns]
    | succ n ih =>
      intro l hl
      match l with
      | [] => simp [collapseSeps, collapseAux, collapseRuns]
      | c :: rest =>
        have hrunEq : collapseRuns (c :: rest) =
            if isSep c then '-' :: collapseRuns (rest.dropWhile isSep)
            else c :: collapseRuns rest := by
          rw [collapseRuns]
        by_cases h : isSep c = true
        · have hdw : List.Sublist (rest.dropWhile isSep) rest := List.dropWhile_sublist isSep
          have hlen : (rest.dropWhile isSep).length ≤ n := by
            have := hdw.length_le
            simp only [List.length_cons] at hl
            omega
          have h1 : collapseSeps (c :: rest) = '-' :: collapseAux false (rest.dropWhile isSep) := by
            simp [collapseSeps, collapseAux, h, collapseAux_true]
          rw [h1, hrunEq, if_pos h]
          exact congrArg (fun t => '-' :: t) (ih _ hlen)
        · have hlen : rest.length ≤ n := by
            simp only [List.length_cons] at hl
            omega
          have h1 : collapseSeps (c :: rest) = c :: collapseAux false rest := by
            simp [collapseSeps, collapseAux, h]
          rw [h1, hrunEq, if_neg h]
          exact congrArg (fun t => c :: t) (ih _ hlen)
  exact H l.length l (Nat.le_refl _)

theorem generate_slug_eq_spec_normalize (s : String) :
    generate_slug s = spec_normalize s := by
  have hlist : (pyLower s).toList = s.toList.map Char.toLower := rfl
  have hfilter :
      removeSpecial (pyLower s).toList =
        (s.toList.map Char.toLower).filter
          (fun c => c.isAlphanum || c = '_' || pyIsSpace c || c = '-') := by
    rw [removeSpecial, hlist]
    apply List.filter_congr
    intro c _
    simp [pyIsWord, Bool.or_assoc]
  rw [generate_slug, spec_normalize, hfilter, collapseSeps_eq_collapseRuns]

/-! ### Behaviour of `update_article` on the publish fields -/

theorem titleStep_total (articles : List Article) (article : Article)
    (article_id : Nat) (data : ArticleUpdate) :
    ∃ ud, titleStep articles article article_id data = some ud ∧
      ud.is_published = none ∧ ud.published_at = none := by
  cases hdata : data.title with
  | none => exact ⟨emptyUpdate, by simp [titleStep, hdata], rfl, rfl⟩
  | some t =>
    by_cases hne : pyStrip t ≠ article.title
    · obtain ⟨s, hs⟩ := assign_slug_total (articles.map fun a => ⟨a.id, a.slug⟩)
        (some article_id) (generate_slug (pyStrip t))
      refine ⟨{ emptyUpdate with title := some (pyStrip t), slug := some s }, ?_, rfl, rfl⟩
      simp [titleStep, hdata, hne, hs]
    · refine ⟨{ emptyUpdate with title := some (pyStrip t) }, ?_, rfl, rfl⟩
      simp [titleStep, hdata, hne]

theorem update_article_spec (sanitize : String → String) (now : Nat)
    (users : List User) (categories : List Category) (articles : List Article)
    (article_id : Nat) (data : ArticleUpdate) (user_id : Nat) (article : Article)
    (hfind : articles.find? (fun a => a.id == article_id) = some article)
    (hperm : can_edit users article user_id = true)
    (hcat : (match data.category_id with
      | none => false
      | some cid => pyTruthyNat cid && !category_valid categories (cid.getD 0)) = false) :
    ∃ result,
      update_article sanitize now users categories articles article_id data user_id =
        some (.ok result) ∧
      result.is_published = data.is_published.getD article.is_published ∧
      result.published_at =
        (match data.is_published with
          | none => article.published_at
          | some p =>
            if p && !article.is_published then some now
            else if !p && article.is_published then none
            else article.published_at) := by
  obtain ⟨ud0, hud0, hpub0, hpat0⟩ := titleStep_total articles article article_id data
  have hud1 : ∃ ud1, excerptStep data (contentStep sanitize data ud0) = ud1 ∧
      ud1.is_published = none ∧ ud1.published_at = none := by
    refine ⟨_, rfl, ?_, ?_⟩ <;>
      cases hc : data.content <;> cases he : data.excerpt <;>
        simp [excerptStep, contentStep, hc, he, hpub0, hpat0]
  obtain ⟨ud1, hud1, hpub1, hpat1⟩ := hud1
  have hud2 : ∃ ud2, categoryStep categories data ud1 = .ok ud2 ∧
      ud2.is_published = none ∧ ud2.published_at = none := by
    cases hcid : data.category_id with
    | none => exact ⟨ud1, by simp [categoryStep, hcid], hpub1, hpat1⟩
    | some cid =>
      rw [hcid] at hcat
      have hcat2 : (pyTruthyNat cid && !category_valid categories (cid.getD 0)) = false := hcat
      refine ⟨{ ud1 with category_id := some cid }, ?_, hpub1, hpat1⟩
      simp only [categoryStep, hcid]
      rw [hcat2]
      simp
  obtain ⟨ud2, hud2, hpub2, hpat2⟩ := hud2
  refine ⟨apply_update article (publishStep now article data ud2), ?_, ?_, ?_⟩
  · simp [update_article, hfind, hperm, hud0, hud1, hud2]
  · cases hp : data.is_published with
    | none => simp [publishStep, hp, apply_update, hpub2]
    | some p =>
      simp only [publishStep, hp, apply_update]
      split
      · simp
      · split <;> simp
  · cases hp : data.is_published with
    | none => simp [publishStep, hp, apply_update, hpat2]
    | some p =>
      simp only [publishStep, hp, apply_update]
      split
      · simp
      · split <;> simp [hpat2]

/-! ## Claim theorems -/

/-- C1: for every candidate text, slug namespace and optional excluded row,
slug assignment terminates and returns a slug the namespace does not contain:
the normalized base slug itself when it is free, otherwise the base slug with
suffix `-k` for the smallest integer `k ≥ 1` that is collision-free; as a
pure function of its arguments, repeated calls against the same namespace
return the same slug. -/
theorem slug_assignment_unique (store : List SlugRow) (ex : Option Nat) (title : String) :
    ∃ s, assign_slug store ex (generate_slug title) = some s ∧
      slug_exists store s ex = false ∧
      (slug_exists store (generate_slug title) ex = false → s = generate_slug title) ∧
      (slug_exists store (generate_slug title) ex = true →
        ∃ k, 1 ≤ k ∧ s = generate_slug title ++ "-" ++ Nat.repr k ∧
          ∀ j, 1 ≤ j → j < k →
            slug_exists store (generate_slug title ++ "-" ++ Nat.repr j) ex = true) ∧
      assign_slug store ex (generate_slug title) =
        assign_slug store ex (generate_slug title) := by
  obtain ⟨m, heq, hfree, hmin⟩ := assign_slug_main store ex (generate_slug title)
  refine ⟨slugCandidate (generate_slug title) m, heq, hfree, ?_, ?_, rfl⟩
  · intro hb
    cases m with
    | zero => rfl
    | succ m' =>
      have h0 := hmin 0 (by omega)
      rw [show slugCandidate (generate_slug title) 0 = generate_slug title from rfl] at h0
      rw [hb] at h0
      cases h0
  · intro hb
    cases m with
    | zero =>
      rw [show slugCandidate (generate_slug title) 0 = generate_slug title from rfl] at hfree
      rw [hb] at hfree
      cases hfree
    | succ m' =>
      refine ⟨m' + 1, by omega, rfl, ?_⟩
      intro j hj1 hjlt
      match j, hj1 with
      | j' + 1, _ => exact hmin (j' + 1) hjlt

theorem slug_assignment_unique_witness :
    ∃ s, assign_slug [⟨1, "hello-world"⟩] none (generate_slug "Hello, World!") = some s ∧
      slug_exists [⟨1, "hello-world"⟩] s none = false := by
  obtain ⟨s, h1, h2, -, h4, -⟩ :=
    slug_assignment_unique [⟨1, "hello-world"⟩] none "Hello, World!"
  exact ⟨s, h1, h2⟩

/-- C3 counterexample: `_generate_slug` keeps underscores, because Python
`\w` matches `_`.  On input `"a_b"` it returns `"a_b"`, which still contains
a character that is neither alphanumeric nor whitespace nor a hyphen; the
claimed normalization would strip it. -/
theorem slug_normalization_counterexample :
    generate_slug "a_b" = "a_b" ∧
      '_' ∈ (generate_slug "a_b").toList ∧
      ('_'.isAlphanum || pyIsSpace '_' || '_' = '-') = false := by
  exact ⟨by decide, by decide, by decide⟩

/-- C3 (amended): slug normalization maps every input to its lowercase form
with every character that is not alphanumeric, *underscore*, whitespace, or
hyphen stripped, whitespace/hyphen runs collapsed to one hyphen,
leading/trailing hyphens trimmed, the result truncated to 100 characters; in
particular it maps `"Hello, World!"` to `"hello-world"`. -/
theorem slug_normalization_amended :
    (∀ s, generate_slug s = spec_normalize s) ∧
      generate_slug "Hello, World!" = "hello-world" :=
  ⟨generate_slug_eq_spec_normalize, by decide⟩

/-- C5 counterexample: when the full 100-character base slug is already
taken, the loop returns the base plus `"-1"` — 102 characters, past the
claimed 100-character bound (the code truncates before suffixing, never
after). -/
theorem slug_length_counterexample :
    (assign_slug [⟨1, longBase⟩] none (generate_slug longBase)).map String.length =
      some 102 := by decide

/-- C5 (amended): the normalized base slug is at most 100 characters, and
whenever the base slug is collision-free the assigned slug is the base slug
itself — hence within the bound; only suffix-disambiguated slugs can exceed
100 characters, by the length of the appended suffix. -/
theorem slug_length_amended (title : String) (store : List SlugRow) (ex : Option Nat) :
    (generate_slug title).length ≤ 100 ∧
      (slug_exists store (generate_slug title) ex = false →
        assign_slug store ex (generate_slug title) = some (generate_slug title)) := by
  constructor
  · have hlen : ∀ l : List Char, (String.mk l).length = l.length := fun l => rfl
    rw [generate_slug, hlen, List.length_take]
    omega
  · intro hb
    obtain ⟨m, heq, hfree, hmin⟩ := assign_slug_main store ex (generate_slug title)
    cases m with
    | zero => exact heq
    | succ m' =>
      have h0 := hmin 0 (by omega)
      rw [show slugCandidate (generate_slug title) 0 = generate_slug title from rfl] at h0
      rw [hb] at h0
      cases h0

theorem slug_length_amended_witness :
    (generate_slug "Hello, World!").length ≤ 100 ∧
      assign_slug [] none (generate_slug "Hello, World!") =
        some (generate_slug "Hello, World!") := by
  obtain ⟨h1, h2⟩ := slug_length_amended "Hello, World!" [] none
  exact ⟨h1, h2 (by decide)⟩

/-- C2 (code bug): an article created with `is_published = true` in its
creation payload ends with `published_at` still absent.  `create_article`
inserts the row with the flag already true, so the follow-up
`article.publish()` is a no-op behind its `if not self.is_published` guard
and `published_at` is never set — against the `published_at` iff
`is_published` invariant and the code's own `# Set published_at if
publishing` comment. -/
theorem create_published_article_bug :
    ∃ a, create_article (fun s => s) 5 1 [] [] []
        ⟨some "Hello", some "Hi there", none, none, some true⟩ 9 "eid" "ts" =
        some (.ok a) ∧
      a.is_published = true ∧ a.published_at = none := by
  refine ⟨⟨1, "Hello", "hello", "Hi there", none, true, none, 9, none⟩, by decide, rfl, rfl⟩

/-- C4 counterexample: the check-time namespace is empty but `"hello-world"`
is present at commit time (the §5 race).  `create_article` does not retry
with `"hello-world-1"`: the `DatabaseError` wrapping the constraint violation
is caught and re-raised as a `ValidationError` with the sanitized default
message, so the call fails instead of disambiguating. -/
theorem slug_conflict_no_retry_counterexample :
    create_article (fun s => s) 5 2 [] [] [⟨1, "hello-world"⟩]
        ⟨some "Hello, World!", some "body", none, none, none⟩ 9 "eid" "ts" =
      some (.error ⟨"ValidationError",
        "An error occurred while processing your request.", "DatabaseError"⟩) := by
  decide

/-- C4 (amended): when the assigned slug collides at the store at commit
time, the repository wraps the `IntegrityError` into a `DatabaseError` and
the service's `except` block converts it into a `ValidationError` carrying
the sanitized default message — no raw storage error reaches the caller —
but the service does not retry with the next suffix: the creation fails. -/
theorem slug_conflict_sanitized_error (sanitize : String → String)
    (now next_id : Nat) (categories : List Category)
    (checkRows persistRows : List SlugRow) (data : ArticleCreate)
    (author_id : Nat) (error_id timestamp slug : String)
    (htitle : pyFalsyStr data.title = false)
    (hcontent : pyFalsyStr data.content = false)
    (hslug : assign_slug checkRows none (generate_slug (data.title.getD "")) = some slug)
    (hcat : (pyTruthyNat data.category_id &&
      !category_valid categories (data.category_id.getD 0)) = false)
    (hcollide : slug ∈ persistRows.map SlugRow.slug) :
    create_article sanitize now next_id categories checkRows persistRows data
        author_id error_id timestamp =
      some (.error ⟨"ValidationError",
        "An error occurred while processing your request.", "DatabaseError"⟩) := by
  simp only [create_article, htitle, hcontent, hslug, Bool.false_eq_true, if_false]
  rw [hcat]
  simp [hcollide, handle_error, pyOrStr, get_default_message]

theorem slug_conflict_sanitized_error_witness :
    create_article (fun s => s) 5 2 [] [] [⟨1, "hello-world"⟩]
        ⟨some "Hello, World!", some "body", none, none, none⟩ 9 "e2" "t2" =
      some (.error ⟨"ValidationError",
        "An error occurred while processing your request.", "DatabaseError"⟩) :=
  slug_conflict_sanitized_error (fun s => s) 5 2 [] [] [⟨1, "hello-world"⟩]
    ⟨some "Hello, World!", some "body", none, none, none⟩ 9 "e2" "t2" "hello-world"
    (by decide) (by decide) (by decide) (by decide) (by decide)

/-- C6: through `update_article`, setting `is_published := true` on a draft
stamps `published_at` with the current UTC instant; setting it to false on a
published article clears `published_at`; a self-transition (the payload flag
equal to the stored flag, covering repeated publish payloads) leaves
`published_at` unchanged and raises no error; and the model-level
`Article.publish` / `Article.unpublish` are no-ops on an already-published /
draft article respectively. -/
theorem publish_state_transitions (sanitize : String → String) (now : Nat)
    (users : List User) (categories : List Category) (articles : List Article)
    (article_id user_id : Nat) (data : ArticleUpdate) (article : Article)
    (hfind : articles.find? (fun a => a.id == article_id) = some article)
    (hperm : can_edit users article user_id = true)
    (hcat : (match data.category_id with
      | none => false
      | some cid => pyTruthyNat cid && !category_valid categories (cid.getD 0)) = false) :
    (data.is_published = some true → article.is_published = false →
      ∃ r, update_article sanitize now users categories articles article_id data user_id =
          some (.ok r) ∧ r.is_published = true ∧ r.published_at = some now) ∧
    (data.is_published = some false → article.is_published = true →
      ∃ r, update_article sanitize now users categories articles article_id data user_id =
          some (.ok r) ∧ r.is_published = false ∧ r.published_at = none) ∧
    (∀ p, data.is_published = some p → article.is_published = p →
      ∃ r, update_article sanitize now users categories articles article_id data user_id =
          some (.ok r) ∧ r.published_at = article.published_at) ∧
    (∀ b : Article, b.is_published = true → Article.publish now b = b) ∧
    (∀ b : Article, b.is_published = false → Article.unpublish b = b) := by
  obtain ⟨r, hr, hpub, hpat⟩ := update_article_spec sanitize now users categories articles
    article_id data user_id article hfind hperm hcat
  refine ⟨?_, ?_, ?_, ?_, ?_⟩
  · intro hp ha
    refine ⟨r, hr, ?_, ?_⟩
    · rw [hpub, hp]
      rfl
    · rw [hp] at hpat
      rw [ha] at hpat
      simpa using hpat
  · intro hp ha
    refine ⟨r, hr, ?_, ?_⟩
    · rw [hpub, hp]
      rfl
    · rw [hp] at hpat
      rw [ha] at hpat
      simpa using hpat
  · intro p hp hpa
    refine ⟨r, hr, ?_⟩
    rw [hp] at hpat
    rw [hpa] at hpat
    simpa using hpat
  · intro b hb
    simp [Article.publish, hb]
  · intro b hb
    simp [Article.unpublish, hb]

theorem publish_state_transitions_witness :
    ∃ r, update_article (fun s => s) 42 [demoAuthor] [] [demoDraft] 1
        ⟨none, none, none, none, some true⟩ 7 = some (.ok r) ∧
      r.is_published = true ∧ r.published_at = some 42 := by
  have h := publish_state_transitions (fun s => s) 42 [demoAuthor] [] [demoDraft] 1 7
    ⟨none, none, none, none, some true⟩ demoDraft (by decide) (by decide) (by decide)
  exact h.1 rfl (by decide)

/-- C7: an update whose payload leaves `is_published` absent, or sets it to
the value already stored, preserves `published_at`, whatever other fields
(title, content, excerpt, category) it changes. -/
theorem published_at_frame (sanitize : String → String) (now : Nat)
    (users : List User) (categories : List Category) (articles : List Article)
    (article_id user_id : Nat) (data : ArticleUpdate) (article : Article)
    (hfind : articles.find? (fun a => a.id == article_id) = some article)
    (hperm : can_edit users article user_id = true)
    (hcat : (match data.category_id with
      | none => false
      | some cid => pyTruthyNat cid && !category_valid categories (cid.getD 0)) = false)
    (hp : data.is_published = none ∨ data.is_published = some article.is_published) :
    ∃ r, update_article sanitize now users categories articles article_id data user_id =
        some (.ok r) ∧ r.published_at = article.published_at := by
  obtain ⟨r, hr, -, hpat⟩ := update_article_spec sanitize now users categories articles
    article_id data user_id article hfind hperm hcat
  refine ⟨r, hr, ?_⟩
  rcases hp with hp | hp
  · rw [hp] at hpat
    simpa using hpat
  · rw [hp] at hpat
    simpa using hpat

theorem published_at_frame_witness :
    ∃ r, update_article (fun s => s) 42 [demoAuthor] [] [demoPublished] 2
        ⟨some "New title", some "newc", some "x", none, none⟩ 7 = some (.ok r) ∧
      r.published_at = some 10 := by
  obtain ⟨r, hr, hp⟩ := published_at_frame (fun s => s) 42 [demoAuthor] [] [demoPublished] 2 7
    ⟨some "New title", some "newc", some "x", none, none⟩ demoPublished
    (by decide) (by decide) (by decide) (Or.inl rfl)
  exact ⟨r, hr, hp.trans (by decide)⟩

/-- C8 counterexample: a caller-supplied *empty* `user_message` is falsy in
Python, so `user_message or default` discards it: the returned message is the
severity default, not the supplied message. -/
theorem handle_error_empty_message_counterexample :
    (handle_error "ValueError" "boom" .MEDIUM [] (some "") "id1" "t1").1.message =
        "An error occurred while processing your request." ∧
      (handle_error "ValueError" "boom" .MEDIUM [] (some "") "id1" "t1").1.message ≠ "" := by
  exact ⟨rfl, by decide⟩

/-- C8 (amended): `handle_error` returns exactly the record
`{error_id, message, severity, timestamp, type}`; the message equals the
caller-supplied `user_message` whenever a *non-empty* one is given, and
otherwise (absent or empty) the fixed default string of the severity; the
context argument appears only in the log record and influences no field of
the returned record. -/
theorem handle_error_response_spec (errType errMsg : String)
    (severity : ErrorSeverity) (context context2 : List (String × String))
    (user_message : Option String) (error_id timestamp : String) :
    (handle_error errType errMsg severity context user_message error_id timestamp).1.error_id =
        error_id ∧
    (handle_error errType errMsg severity context user_message error_id timestamp).1.severity =
        severity.value ∧
    (handle_error errType errMsg severity context user_message error_id timestamp).1.timestamp =
        timestamp ∧
    (handle_error errType errMsg severity context user_message error_id timestamp).1.type =
        errType ∧
    (∀ m, user_message = some m → m ≠ "" →
      (handle_error errType errMsg severity context user_message error_id timestamp).1.message =
        m) ∧
    (user_message = none ∨ user_message = some "" →
      (handle_error errType errMsg severity context user_message error_id timestamp).1.message =
        get_default_message severity) ∧
    (handle_error errType errMsg severity context user_message error_id timestamp).1 =
      (handle_error errType errMsg severity context2 user_message error_id timestamp).1 ∧
    (handle_error errType errMsg severity context user_message error_id timestamp).2.context =
      context := by
  refine ⟨rfl, rfl, rfl, rfl, ?_, ?_, rfl, rfl⟩
  · intro m hm hne
    simp [handle_error, pyOrStr, hm, hne]
  · intro hm
    rcases hm with hm | hm <;> simp [handle_error, pyOrStr, hm]

theorem handle_error_response_spec_witness :
    (handle_error "ValueError" "boom" .LOW [("k", "v")] (some "Oops") "id1" "t1").1.message =
      "Oops" := by
  have h := handle_error_response_spec "ValueError" "boom" .LOW [("k", "v")] []
    (some "Oops") "id1" "t1"
  exact h.2.2.2.2.1 "Oops" rfl (by decide)

/-- C9 counterexample: at an instant whose microsecond component is nonzero,
`utcnow().isoformat() + "Z"` carries a 6-digit fractional part: the returned
timestamp is not of the claimed second-precision `YYYY-MM-DDTHH:MM:SSZ`
shape (its length is 27, not 20). -/
theorem timestamp_format_counterexample :
    get_timestamp ⟨2023, 12, 25, 10, 30, 45, 1⟩ = "2023-12-25T10:30:45.000001Z" ∧
      get_timestamp ⟨2023, 12, 25, 10, 30, 45, 1⟩ ≠ "2023-12-25T10:30:45Z" ∧
      (get_timestamp ⟨2023, 12, 25, 10, 30, 45, 1⟩).length ≠ 20 := by
  exact ⟨by decide, by decide, by decide⟩

/-- C9 (amended): the timestamp is `utcnow().isoformat() + "Z"`: exactly the
20-character `YYYY-MM-DDTHH:MM:SSZ` form when the instant's microsecond
component is zero, and the 27-character `YYYY-MM-DDTHH:MM:SS.ffffffZ` form
(six fractional digits) otherwise. -/
theorem timestamp_format_amended (d : PyDateTime) :
    (d.microsecond = 0 →
      get_timestamp d = secondsPart d ++ "Z" ∧ (get_timestamp d).length = 20) ∧
    (d.microsecond ≠ 0 →
      get_timestamp d = secondsPart d ++ "." ++ pad6 d.microsecond ++ "Z" ∧
        (get_timestamp d).length = 27) := by
  have hsec : (secondsPart d).length = 19 := by
    simp [secondsPart, String.length_append]
    rfl
  constructor
  · intro hz
    have hts : get_timestamp d = secondsPart d ++ "Z" := by
      simp [get_timestamp, pyIsoformat, hz]
    refine ⟨hts, ?_⟩
    rw [hts, String.length_append, hsec]
    rfl
  · intro hnz
    have hts : get_timestamp d = secondsPart d ++ "." ++ pad6 d.microsecond ++ "Z" := by
      simp [get_timestamp, pyIsoformat, hnz, String.append_assoc]
    refine ⟨hts, ?_⟩
    rw [hts]
    simp [String.length_append, hsec]
    rfl

theorem timestamp_format_amended_witness :
    get_timestamp ⟨2023, 12, 25, 10, 30, 45, 0⟩ =
        secondsPart ⟨2023, 12, 25, 10, 30, 45, 0⟩ ++ "Z" ∧
      (get_timestamp ⟨2023, 12, 25, 10, 30, 45, 0⟩).length = 20 :=
  (timestamp_format_amended ⟨2023, 12, 25, 10, 30, 45, 0⟩).1 rfl

/-- C10: with a schema-valid login, all three authentication failure causes —
email not registered, deactivated account, and wrong password — produce the
identical outward result: an `AuthenticationError` whose message is the fixed
`"Authentication failed. Please check your credentials."` and whose recorded
details type is `"AuthenticationError"`; the response does not reveal whether
an account with the given email exists. -/
theorem auth_failure_indistinguishable (loginValid verify : String → String → Bool)
    (users : List User) (email password : String) (error_id timestamp : String)
    (hv : loginValid email password = true) :
    (get_by_email users email = none →
      authenticate_user loginValid verify users email password error_id timestamp =
        .failure "AuthenticationError"
          "Authentication failed. Please check your credentials." "AuthenticationError") ∧
    (∀ user, get_by_email users email = some user → user.is_active = false →
      authenticate_user loginValid verify users email password error_id timestamp =
        .failure "AuthenticationError"
          "Authentication failed. Please check your credentials." "AuthenticationError") ∧
    (∀ user, get_by_email users email = some user → user.is_active = true →
      verify password user.password_hash = false →
      authenticate_user loginValid verify users email password error_id timestamp =
        .failure "AuthenticationError"
          "Authentication failed. Please check your credentials." "AuthenticationError") := by
  refine ⟨?_, ?_, ?_⟩
  · intro hnone
    simp [authenticate_user, hv, hnone, handle_error, pyOrStr]
  · intro user hsome hina
    simp [authenticate_user, hv, hsome, hina, handle_error, pyOrStr]
  · intro user hsome hact hverify
    simp [authenticate_user, hv, hsome, hact, hverify, handle_error, pyOrStr]

theorem auth_failure_indistinguishable_witness :
    authenticate_user (fun _ _ => true) (fun _ _ => false)
        [⟨1, "a@b.c", "u", "h", true, false, false⟩] "a@b.c" "pw" "i" "t" =
      .failure "AuthenticationError"
        "Authentication failed. Please check your credentials." "AuthenticationError" := by
  have h := auth_failure_indistinguishable (fun _ _ => true) (fun _ _ => false)
    [⟨1, "a@b.c", "u", "h", true, false, false⟩] "a@b.c" "pw" "i" "t" rfl
  exact h.2.2 ⟨1, "a@b.c", "u", "h", true, false, false⟩ (by decide) rfl rfl

end CMS
